import Mathlib

/-!
Verification development for the corredephd content-publishing application.

The embedding covers the authorization decision subsystem:
- the client-side profile resolution and permission checks
  (src/utils/userProfile.ts),
- the page-level compositions of those checks
  (src/pages/PostDetail.tsx, src/pages/EditPost.tsx, src/pages/Home.tsx,
   src/components/PostCard.tsx, src/pages/SiteSettings.tsx),
- the production Firestore security rules (FIRESTORE_RULES.md).

Firestore documents are modelled as Lean structures; timestamps as Nat;
a document-store read yields found / absent / failure (the last modelling
a thrown Firestore error).
-/

namespace Corredephd

/-- The closed role set: UserRole in src/types/index.ts. -/
inductive Role where
  | admin
  | editor
  | author
  | contributor
  | subscriber
deriving DecidableEq, BEq, Repr

/-- A stored users/{uid} document: the fields written by createUserProfile
and read by getUserProfile (timestamps modelled as Nat). -/
structure ProfileDoc where
  uid : String
  email : String
  displayName : String
  profile : Role
  createdAt : Nat
  updatedAt : Nat
deriving DecidableEq, Repr

/-- Outcome of a Firestore document read: the document exists, it is
absent, or the read throws (network / permission error). -/
inductive ReadResult (α : Type) where
  | found (value : α)
  | absent
  | failure
deriving DecidableEq, Repr

/-- The users collection: document id to read outcome. -/
def Store : Type := String → ReadResult ProfileDoc

/-- The UserProfile value returned to the client (src/types/index.ts). -/
structure UserProfile where
  uid : String
  email : String
  displayName : String
  profile : Role
  createdAt : Nat
  updatedAt : Nat
deriving DecidableEq, Repr

/-- getUserProfile (src/utils/userProfile.ts lines 9-30): returns the
profile when the document exists, null when it is absent, and null again
from the catch block when the read throws. -/
def getUserProfile (store : Store) (userId : String) : Option UserProfile :=
  match store userId with
  | .found d => some ⟨d.uid, d.email, d.displayName, d.profile, d.createdAt, d.updatedAt⟩
  | .absent => none
  | .failure => none

/-- The optional-chained role lookup profile?.profile used by every check. -/
def roleOf (store : Store) (userId : String) : Option Role :=
  (getUserProfile store userId).map (fun p => p.profile)

/-- isEditor (lines 70-73): profile?.profile === 'editor' || === 'admin'. -/
def isEditor (store : Store) (userId : String) : Bool :=
  roleOf store userId == some Role.editor || roleOf store userId == some Role.admin

/-- isAdmin (lines 78-81): profile?.profile === 'admin'. -/
def isAdmin (store : Store) (userId : String) : Bool :=
  roleOf store userId == some Role.admin

/-- canCreatePosts (lines 86-90): role === 'admin' || 'editor' || 'author'. -/
def canCreatePosts (store : Store) (userId : String) : Bool :=
  let role := roleOf store userId
  role == some Role.admin || role == some Role.editor || role == some Role.author

/-- canEditAnyPost (lines 95-99): role === 'admin' || 'editor'. -/
def canEditAnyPost (store : Store) (userId : String) : Bool :=
  let role := roleOf store userId
  role == some Role.admin || role == some Role.editor

/-- canEditOwnPosts (lines 104-108): 'admin' || 'editor' || 'author' || 'contributor'. -/
def canEditOwnPosts (store : Store) (userId : String) : Bool :=
  let role := roleOf store userId
  role == some Role.admin || role == some Role.editor ||
    role == some Role.author || role == some Role.contributor

/-- canModerateComments (lines 113-117): role === 'admin' || 'editor'. -/
def canModerateComments (store : Store) (userId : String) : Bool :=
  let role := roleOf store userId
  role == some Role.admin || role == some Role.editor

/-- getUserRole (lines 122-125): profile?.profile || null (role strings
are non-empty, hence truthy, so this is exactly the optional projection). -/
def getUserRole (store : Store) (userId : String) : Option Role :=
  (getUserProfile store userId).map (fun p => p.profile)

/-! ### Storage policy evaluator (FIRESTORE_RULES.md, production rules)

request.auth is modelled as an Option String (none = unauthenticated).
The rules helper getUserRole() performs get(users/$(request.auth.uid))
.data.profile; a missing document or failed read makes the rule
expression error out, which Firestore treats as deny — modelled by the
Option Role being none and every membership test on none being false. -/

/-- The rules helper getUserRole(): role of the requesting principal as
seen by the storage tier, none when unauthenticated or unresolvable. -/
def ruleUserRole (store : Store) (auth : Option String) : Option Role :=
  auth.bind (fun u => roleOf store u)

/-- A rules membership test r in [ ... ]; errors (none) deny. -/
def roleIn (r : Option Role) (l : List Role) : Bool :=
  match r with
  | some x => l.contains x
  | none => false

/-- resource.data.authorId == request.auth.uid, false when unauthenticated. -/
def ownerMatches (auth : Option String) (resourceAuthorId : String) : Bool :=
  match auth with
  | some u => resourceAuthorId == u
  | none => false

/-- posts create rule: request.auth != null && getUserRole() in
['admin', 'editor', 'author']. -/
def postsCreateAllowed (store : Store) (auth : Option String) : Bool :=
  auth.isSome && roleIn (ruleUserRole store auth) [Role.admin, Role.editor, Role.author]

/-- posts update/delete rule: request.auth != null && (getUserRole() in
['admin','editor'] || (getUserRole() in ['author','contributor'] &&
resource.data.authorId == request.auth.uid)). -/
def postsUpdateDeleteAllowed (store : Store) (auth : Option String)
    (resourceAuthorId : String) : Bool :=
  auth.isSome && (roleIn (ruleUserRole store auth) [Role.admin, Role.editor] ||
    (roleIn (ruleUserRole store auth) [Role.author, Role.contributor] &&
      ownerMatches auth resourceAuthorId))

/-- comments create rule: request.auth != null. -/
def commentsCreateAllowed (auth : Option String) : Bool :=
  auth.isSome

/-- comments delete rule: request.auth != null && getUserRole() in
['admin', 'editor']. -/
def commentsDeleteAllowed (store : Store) (auth : Option String) : Bool :=
  auth.isSome && roleIn (ruleUserRole store auth) [Role.admin, Role.editor]

/-- users/{userId} read rule: request.auth != null && request.auth.uid == userId. -/
def usersReadAllowed (auth : Option String) (docId : String) : Bool :=
  match auth with
  | some u => u == docId
  | none => false

/-- users/{userId} write rule: request.auth != null && request.auth.uid == userId.
The rule inspects only the requester identity, never the request payload. -/
def usersWriteAllowed (auth : Option String) (docId : String) : Bool :=
  match auth with
  | some u => u == docId
  | none => false

/-- The rules helper isAdmin(): request.auth != null && getUserRole() == 'admin'. -/
def isAdminRule (store : Store) (auth : Option String) : Bool :=
  auth.isSome && (ruleUserRole store auth == some Role.admin)

/-- site/settings write rule: allow write if isAdmin(). -/
def siteWriteAllowed (store : Store) (auth : Option String) : Bool :=
  isAdminRule store auth

/-- posts read rule: allow read if true. -/
def postsReadAllowed : Bool := true

/-- site/settings read rule: allow read if true. -/
def siteReadAllowed : Bool := true

/-! ### Write operations

createUserProfile performs a setDoc(..., merge true): fields present in
the payload overwrite the stored ones, absent fields are kept. The
payload always carries all six fields. Post updates go through
updateDoc with a field-wise payload. -/

/-- The Firebase Auth user consumed by createUserProfile: uid plus
possibly-null display attributes. -/
structure AuthUser where
  uid : String
  email : Option String
  displayName : Option String
deriving DecidableEq, Repr

/-- A merge-write payload for a users/{uid} document: fields absent from
the payload are preserved by the merge. -/
structure ProfilePatch where
  uid? : Option String
  email? : Option String
  displayName? : Option String
  profile? : Option Role
  createdAt? : Option Nat
  updatedAt? : Option Nat
deriving DecidableEq, Repr

/-- Merge a payload onto an existing document: payload fields win. -/
def mergePatch (old : ProfileDoc) (p : ProfilePatch) : ProfileDoc :=
  ⟨p.uid?.getD old.uid, p.email?.getD old.email, p.displayName?.getD old.displayName,
   p.profile?.getD old.profile, p.createdAt?.getD old.createdAt, p.updatedAt?.getD old.updatedAt⟩

/-- Materialise a payload as a fresh document (target absent); the
defaults are irrelevant because createUserProfile supplies every field. -/
def patchToDoc (p : ProfilePatch) : ProfileDoc :=
  ⟨p.uid?.getD "", p.email?.getD "", p.displayName?.getD "",
   p.profile?.getD Role.subscriber, p.createdAt?.getD 0, p.updatedAt?.getD 0⟩

/-- setDoc(ref, data, merge true): merge onto the current document if one
exists, otherwise create it from the payload. -/
def setDocMerge (old : ReadResult ProfileDoc) (p : ProfilePatch) : ProfileDoc :=
  match old with
  | .found d => mergePatch d p
  | .absent => patchToDoc p
  | .failure => patchToDoc p

/-- The profileData object built by createUserProfile (lines 41-48):
uid, email || empty, displayName || Anonymous, the profile argument
(default subscriber at the call boundary), createdAt = updatedAt = now.
Every field is present. -/
def createUserProfileData (user : AuthUser) (profile : Role) (now : Nat) : ProfilePatch :=
  ⟨some user.uid, some (user.email.getD ""), some (user.displayName.getD "Anonymous"),
   some profile, some now, some now⟩

/-- createUserProfile (lines 35-65): an unconditional merge-write of
profileData to users/{user.uid}; the function never reads the store
first. Returns the updated store (success path; the catch rethrows). -/
def createUserProfile (store : Store) (user : AuthUser) (profile : Role) (now : Nat) : Store :=
  fun id =>
    if id = user.uid then
      .found (setDocMerge (store user.uid) (createUserProfileData user profile now))
    else store id

/-- A stored posts/{postId} document (fields relevant to authorization
and to the edit path), timestamps as Nat. -/
structure Post where
  id : String
  title : String
  content : String
  authorId : String
  categories : List String
  tags : List String
  featuredImage : Option String
  updatedAt : Nat
deriving DecidableEq, Repr

/-- An updateDoc payload for a post: present fields overwrite stored ones. -/
structure PostUpdateData where
  title? : Option String
  content? : Option String
  updatedAt? : Option Nat
  categories? : Option (List String)
  tags? : Option (List String)
  featuredImage? : Option (Option String)
  authorId? : Option String
deriving DecidableEq, Repr

/-- Apply an updateDoc payload to a stored post document. -/
def applyPostUpdate (old : Post) (d : PostUpdateData) : Post :=
  ⟨old.id, d.title?.getD old.title, d.content?.getD old.content,
   d.authorId?.getD old.authorId, d.categories?.getD old.categories,
   d.tags?.getD old.tags, d.featuredImage?.getD old.featuredImage,
   d.updatedAt?.getD old.updatedAt⟩

/-- The updateData object built by EditPost.handleSubmit (EditPost.tsx
lines 182-196): title, content, updatedAt, categories, tags,
featuredImage — and no authorId field. -/
def editPostUpdateData (title content : String) (now : Nat)
    (categories tags : List String) (featuredImage : Option String) : PostUpdateData :=
  ⟨some title, some content, some now, some categories, some tags,
   some featuredImage, none⟩

/-- A post update as adjudicated by the storage tier: applied when the
posts update rule (evaluated against the stored authorId) allows it,
rejected (stored document unchanged) otherwise. -/
def storagePostUpdate (store : Store) (auth : Option String)
    (old : Post) (d : PostUpdateData) : Post :=
  if postsUpdateDeleteAllowed store auth old.authorId then applyPostUpdate old d else old

/-- A users/{docId} write as adjudicated by the storage tier: the
requested document replaces the stored one when the users write rule
allows it, and is rejected otherwise. -/
def applyUsersWrite (auth : Option String) (docId : String)
    (old requested : ProfileDoc) : ProfileDoc :=
  if usersWriteAllowed auth docId then requested else old

/-! ### Page-level compositions of the client checks -/

/-- The operations adjudicated by both the client checks and the
production rules. -/
inductive Action where
  | createPost
  | editPost
  | deletePost
  | moderateComment
  | writeSiteConfig
deriving DecidableEq, Repr

/-- The client-side decision for each operation, as composed by the
pages: canCreatePosts gates creation (Home.tsx, CreatePost), the
PostDetail/EditPost tie-break canEditAny || (canEditOwn && isOwnPost)
gates edit and delete, canModerateComments gates comment moderation,
and isAdmin gates the site-settings page. An unauthenticated principal
is denied (the pages set the flags to false without a currentUser). -/
def clientAllows (store : Store) (auth : Option String) (a : Action)
    (resourceAuthorId : String) : Bool :=
  match auth with
  | none => false
  | some u =>
    match a with
    | .createPost => canCreatePosts store u
    | .editPost => canEditAnyPost store u || (canEditOwnPosts store u && (u == resourceAuthorId))
    | .deletePost => canEditAnyPost store u || (canEditOwnPosts store u && (u == resourceAuthorId))
    | .moderateComment => canModerateComments store u
    | .writeSiteConfig => isAdmin store u

/-- The storage-tier decision for the same operations, from the
production rules. -/
def storageAllows (store : Store) (auth : Option String) (a : Action)
    (resourceAuthorId : String) : Bool :=
  match a with
  | .createPost => postsCreateAllowed store auth
  | .editPost => postsUpdateDeleteAllowed store auth resourceAuthorId
  | .deletePost => postsUpdateDeleteAllowed store auth resourceAuthorId
  | .moderateComment => commentsDeleteAllowed store auth
  | .writeSiteConfig => siteWriteAllowed store auth

/-- The SiteSettings page gate (SiteSettings.tsx): a signed-in user
stays on the page exactly when isAdmin returns true (otherwise the page
navigates away); without a user the page redirects to login. -/
def siteSettingsPageAccess (store : Store) (auth : Option String) : Bool :=
  match auth with
  | some u => isAdmin store u
  | none => false

/-- The canCreate flag computed by Home.tsx onAuthStateChanged:
canCreatePosts for the signed-in user, false when signed out. -/
def homeCanCreate (store : Store) (auth : Option String) : Bool :=
  match auth with
  | some u => canCreatePosts store u
  | none => false

/-- PostCard renders its edit/delete affordances exactly when its
isEditor prop is true (PostCard.tsx line 60). -/
def postCardShowsActions (isEditorProp : Bool) : Bool := isEditorProp

/-- Home passes canCreate as every PostCard isEditor prop
(Home.tsx, the PostCard render), so the affordances on a listed post
are gated by the canCreate flag alone. -/
def homeShowsPostActions (store : Store) (auth : Option String) (_post : Post) : Bool :=
  postCardShowsActions (homeCanCreate store auth)

/-- The delete issued from the Home page for a listed post: confirming
the card dialog calls onDelete(post.id), and handleDeletePost issues
deleteDoc(posts/postId) unconditionally — so a delete request for
post.id is issued exactly when the affordance was rendered. -/
def homeDeleteRequest (store : Store) (auth : Option String) (post : Post) : Option String :=
  if homeShowsPostActions store auth post then some post.id else none

/-! ### Helper stores for concrete instances -/

/-- A users collection holding exactly one profile document. -/
def singleStore (uid : String) (d : ProfileDoc) : Store :=
  fun id => if id = uid then .found d else .absent

/-- A users collection whose every read throws. -/
def failingStore : Store := fun _ => .failure

/-- A users collection with no documents. -/
def emptyStore : Store := fun _ => .absent

/-! ### Spec-side rule table (for the refinement/tie-break claims)

These two definitions follow the words of the specification rule table
(spec 4.3), to be compared with the decisions computed from the source. -/

/-- Modelled from the spec: the EditPost/DeletePost (any) row of the 4.3
rule table — allow for admin and editor, deny otherwise. -/
def specAnyRule : Role → Bool
  | Role.admin => true
  | Role.editor => true
  | _ => false

/-- Modelled from the spec: the EditPost/DeletePost (own) row of the 4.3
rule table — allow for every role except subscriber. -/
def specOwnRule : Role → Bool
  | Role.subscriber => false
  | _ => true

/-- Modelled from the spec: the 4.3 tie-break — for a per-resource
action the decision is the OR of the "any" rule and the "own" rule
conjoined with ownership; an unresolved role (unauthenticated or
profile missing) is denied. -/
def specPerResourceDecision (r : Option Role) (ownership : Bool) : Bool :=
  (match r with | some x => specAnyRule x | none => false) ||
    ((match r with | some x => specOwnRule x | none => false) && ownership)

/-! ### Helper lemmas -/

theorem beqStrComm (a b : String) : (a == b) = (b == a) := by
  by_cases h : a = b
  · subst h; rfl
  · have h1 : (a == b) = false := by simp [h]
    have h2 : (b == a) = false := by
      simp [h]
      intro hba
      exact h hba.symm
    rw [h1, h2]

theorem conformCreate (r : Option Role) :
    (r == some Role.admin || r == some Role.editor || r == some Role.author)
      = roleIn r [Role.admin, Role.editor, Role.author] := by
  rcases r with _ | r
  · rfl
  · cases r <;> rfl

theorem conformPerResource (r : Option Role) (ow : Bool) :
    ((r == some Role.admin || r == some Role.editor) ||
      ((r == some Role.admin || r == some Role.editor || r == some Role.author ||
        r == some Role.contributor) && ow))
      = (roleIn r [Role.admin, Role.editor] || (roleIn r [Role.author, Role.contributor] && ow)) := by
  rcases r with _ | r
  · cases ow <;> rfl
  · cases r <;> cases ow <;> rfl

theorem conformModerate (r : Option Role) :
    (r == some Role.admin || r == some Role.editor)
      = roleIn r [Role.admin, Role.editor] := by
  rcases r with _ | r
  · rfl
  · cases r <;> rfl

theorem ruleUserRole_some (store : Store) (u : String) :
    ruleUserRole store (some u) = roleOf store u := rfl

theorem tieBreakSpecStorage (r : Option Role) (ow : Bool) :
    (roleIn r [Role.admin, Role.editor] || (roleIn r [Role.author, Role.contributor] && ow))
      = specPerResourceDecision r ow := by
  rcases r with _ | r
  · cases ow <;> rfl
  · cases r <;> cases ow <;> rfl

theorem tieBreakSpec (r : Option Role) (ow : Bool) :
    ((r == some Role.admin || r == some Role.editor) ||
      ((r == some Role.admin || r == some Role.editor || r == some Role.author ||
        r == some Role.contributor) && ow))
      = specPerResourceDecision r ow := by
  rcases r with _ | r
  · cases ow <;> rfl
  · cases r <;> cases ow <;> rfl

/-! ### Claim theorems -/

/-- Claim C1: for every authentication state (unauthenticated or signed
in with any stored role, including missing/unreadable profiles), every
operation in the rule table, and every resource owner, the client-side
permission checks composed with the ownership tie-break return the same
allow/deny decision as the storage-tier policy rules. -/
theorem client_storage_conformance :
    ∀ (store : Store) (auth : Option String) (a : Action) (resourceAuthorId : String),
      clientAllows store auth a resourceAuthorId = storageAllows store auth a resourceAuthorId := by
  intro store auth a aid
  cases auth with
  | none =>
    cases a <;>
      simp [clientAllows, storageAllows, postsCreateAllowed,
        postsUpdateDeleteAllowed, commentsDeleteAllowed, siteWriteAllowed, isAdminRule]
  | some u =>
    have hrole : ruleUserRole store (some u) = roleOf store u := rfl
    cases a
    case createPost =>
      show canCreatePosts store u = postsCreateAllowed store (some u)
      simp only [canCreatePosts, postsCreateAllowed, hrole, Option.isSome_some, Bool.true_and]
      exact conformCreate (roleOf store u)
    case editPost =>
      show (canEditAnyPost store u || (canEditOwnPosts store u && (u == aid)))
          = postsUpdateDeleteAllowed store (some u) aid
      simp only [canEditAnyPost, canEditOwnPosts, postsUpdateDeleteAllowed, ownerMatches,
        hrole, Option.isSome_some, Bool.true_and]
      rw [beqStrComm u aid]
      exact conformPerResource (roleOf store u) (aid == u)
    case deletePost =>
      show (canEditAnyPost store u || (canEditOwnPosts store u && (u == aid)))
          = postsUpdateDeleteAllowed store (some u) aid
      simp only [canEditAnyPost, canEditOwnPosts, postsUpdateDeleteAllowed, ownerMatches,
        hrole, Option.isSome_some, Bool.true_and]
      rw [beqStrComm u aid]
      exact conformPerResource (roleOf store u) (aid == u)
    case moderateComment =>
      show canModerateComments store u = commentsDeleteAllowed store (some u)
      simp only [canModerateComments, commentsDeleteAllowed, hrole, Option.isSome_some,
        Bool.true_and]
      exact conformModerate (roleOf store u)
    case writeSiteConfig =>
      show isAdmin store u = siteWriteAllowed store (some u)
      simp only [isAdmin, siteWriteAllowed, isAdminRule, hrole, Option.isSome_some,
        Bool.true_and]

/-- Claim C2 counterexample: a stored record with role admin, after a
createUserProfile call with the default subscriber argument, holds role
subscriber — the stored record is not left unchanged and the elevated
role is downgraded. -/
theorem createUserProfile_overwrites_admin_role :
    roleOf (singleStore "u" ⟨"u", "e@x", "Ada", Role.admin, 1, 1⟩) "u" = some Role.admin ∧
    roleOf (createUserProfile (singleStore "u" ⟨"u", "e@x", "Ada", Role.admin, 1, 1⟩)
      ⟨"u", none, none⟩ Role.subscriber 5) "u" = some Role.subscriber := by
  constructor <;> decide

/-- Claim C2 (amended): createUserProfile is an unconditional merge-write
of every profile field: after the call the stored record at user.uid is
rebuilt from the supplied values — the stored role equals the profile
argument (subscriber at the sign-in call sites) regardless of the
previously stored role, and display attributes are refreshed — so the
stored record is preserved only when the supplied values coincide with
the stored ones; callers must check existence first to avoid downgrading
an elevated role. -/
theorem createUserProfile_overwrite :
    ∀ (store : Store) (user : AuthUser) (profile : Role) (now : Nat),
      roleOf (createUserProfile store user profile now) user.uid = some profile ∧
      getUserProfile (createUserProfile store user profile now) user.uid =
        some ⟨user.uid, user.email.getD "", user.displayName.getD "Anonymous",
          profile, now, now⟩ := by
  intro store user p now
  have h2 : setDocMerge (store user.uid) (createUserProfileData user p now) =
      ⟨user.uid, user.email.getD "", user.displayName.getD "Anonymous", p, now, now⟩ := by
    cases hs : store user.uid <;> rfl
  refine ⟨?_, ?_⟩
  · simp [roleOf, getUserProfile, createUserProfile, h2]
  · simp [getUserProfile, createUserProfile, h2]

/-- Claim C3: when the users document read throws for userId, the
profile resolves to null and every permission check returns false. -/
theorem store_failure_denies_all :
    ∀ (store : Store) (userId : String), store userId = ReadResult.failure →
      getUserProfile store userId = none ∧
      isEditor store userId = false ∧ isAdmin store userId = false ∧
      canCreatePosts store userId = false ∧ canEditAnyPost store userId = false ∧
      canEditOwnPosts store userId = false ∧ canModerateComments store userId = false := by
  intro store u h
  have hp : getUserProfile store u = none := by simp [getUserProfile, h]
  have hr : roleOf store u = none := by simp [roleOf, hp]
  exact ⟨hp, by simp only [isEditor, hr]; rfl, by simp only [isAdmin, hr]; rfl,
    by simp only [canCreatePosts, hr]; rfl, by simp only [canEditAnyPost, hr]; rfl,
    by simp only [canEditOwnPosts, hr]; rfl, by simp only [canModerateComments, hr]; rfl⟩

/-- Claim C3 witness: the failing store at a concrete user id. -/
theorem store_failure_denies_all_witness :
    getUserProfile failingStore "u" = none ∧
    isEditor failingStore "u" = false ∧ isAdmin failingStore "u" = false ∧
    canCreatePosts failingStore "u" = false ∧ canEditAnyPost failingStore "u" = false ∧
    canEditOwnPosts failingStore "u" = false ∧ canModerateComments failingStore "u" = false :=
  store_failure_denies_all failingStore "u" rfl

/-- Claim C4 counterexample: the users write rule lets the principal
mallory write their own users/mallory document, and the adjudicated
write replaces the stored subscriber role with admin instead of
rejecting or ignoring the role change. -/
theorem users_rule_allows_own_role_change :
    usersWriteAllowed (some "mallory") "mallory" = true ∧
    (applyUsersWrite (some "mallory") "mallory"
        ⟨"mallory", "m@x", "Mallory", Role.subscriber, 1, 1⟩
        ⟨"mallory", "m@x", "Mallory", Role.admin, 1, 2⟩).profile = Role.admin ∧
    (⟨"mallory", "m@x", "Mallory", Role.subscriber, 1, 1⟩ : ProfileDoc).profile ≠ Role.admin := by
  refine ⟨?_, ?_, ?_⟩ <;> decide

/-- Claim C4 (amended): the users/{userId} write rule checks only the
requester identity, never the payload: a principal's write to their own
profile document is accepted in full — the requested document, with any
changed role field, replaces the stored one — while writes to another
principal's document and unauthenticated writes are rejected; role
changes are therefore prevented only for documents of other principals,
not for the writer's own document. -/
theorem users_write_identity_only :
    (∀ (u docId : String), usersWriteAllowed (some u) docId = (u == docId)) ∧
    (∀ (docId : String), usersWriteAllowed none docId = false) ∧
    (∀ (u docId : String) (old requested : ProfileDoc),
      applyUsersWrite (some u) docId old requested
        = if u == docId then requested else old) ∧
    (∀ (docId : String) (old requested : ProfileDoc),
      applyUsersWrite none docId old requested = old) := by
  refine ⟨?_, ?_, ?_, ?_⟩ <;> intros <;> rfl

/-- Claim C5 counterexample: with author ann owning post p1, the posts
update rule permits an update whose payload rewrites authorId to eve,
and the adjudicated update changes the stored authorId — the change is
neither rejected nor ignored. -/
theorem posts_rule_allows_authorId_change :
    postsUpdateDeleteAllowed (singleStore "ann" ⟨"ann", "a@x", "Ann", Role.author, 1, 1⟩)
      (some "ann") "ann" = true ∧
    (storagePostUpdate (singleStore "ann" ⟨"ann", "a@x", "Ann", Role.author, 1, 1⟩)
        (some "ann")
        ⟨"p1", "T", "C", "ann", [], [], none, 1⟩
        ⟨none, none, some 2, none, none, none, some "eve"⟩).authorId = "eve" ∧
    ("ann" : String) ≠ "eve" := by
  refine ⟨?_, ?_, ?_⟩ <;> decide

/-- Claim C5 (amended): the application's own edit path preserves
authorId — the EditPost update payload carries no authorId field, and an
applied update leaves authorId unchanged exactly when the payload omits
it — but the storage rules do not enforce authorId immutability: an
update they permit stores whatever authorId its payload carries. -/
theorem authorId_update_characterization :
    (∀ (old : Post) (title content : String) (now : Nat)
        (categories tags : List String) (featuredImage : Option String),
      (applyPostUpdate old
          (editPostUpdateData title content now categories tags featuredImage)).authorId
        = old.authorId) ∧
    (∀ (old : Post) (d : PostUpdateData),
      (applyPostUpdate old d).authorId = d.authorId?.getD old.authorId) := by
  refine ⟨?_, ?_⟩ <;> intros <;> rfl

/-- Claim C6: a subscriber profile makes every client permission check
false and the storage rules deny the corresponding writes (posts
create/update/delete, comment moderation, site-settings write); the same
writes are denied for an unauthenticated principal, whose client
decision is false for every operation. -/
theorem subscriber_and_unauthenticated_denied :
    ∀ (store : Store) (u authorId : String),
      roleOf store u = some Role.subscriber →
      isEditor store u = false ∧ isAdmin store u = false ∧
      canCreatePosts store u = false ∧ canEditAnyPost store u = false ∧
      canEditOwnPosts store u = false ∧ canModerateComments store u = false ∧
      postsCreateAllowed store (some u) = false ∧
      postsUpdateDeleteAllowed store (some u) authorId = false ∧
      commentsDeleteAllowed store (some u) = false ∧
      siteWriteAllowed store (some u) = false ∧
      postsCreateAllowed store none = false ∧
      postsUpdateDeleteAllowed store none authorId = false ∧
      commentsDeleteAllowed store none = false ∧
      siteWriteAllowed store none = false ∧
      (∀ a : Action, clientAllows store none a authorId = false) := by
  intro store u aid h
  refine ⟨?_, ?_, ?_, ?_, ?_, ?_, ?_, ?_, ?_, ?_, ?_, ?_, ?_, ?_, ?_⟩ <;>
    first
      | (simp only [isEditor, isAdmin, canCreatePosts, canEditAnyPost, canEditOwnPosts,
          canModerateComments, postsCreateAllowed, postsUpdateDeleteAllowed,
          commentsDeleteAllowed, siteWriteAllowed, isAdminRule, ruleUserRole_some, h]; rfl)
      | rfl
      | (intro a; rfl)

/-- Claim C6 witness: a concrete store holding a subscriber profile. -/
theorem subscriber_and_unauthenticated_denied_witness :
    isEditor (singleStore "sam" ⟨"sam", "s@x", "Sam", Role.subscriber, 1, 1⟩) "sam" = false ∧
    isAdmin (singleStore "sam" ⟨"sam", "s@x", "Sam", Role.subscriber, 1, 1⟩) "sam" = false ∧
    canCreatePosts (singleStore "sam" ⟨"sam", "s@x", "Sam", Role.subscriber, 1, 1⟩) "sam" = false ∧
    canEditAnyPost (singleStore "sam" ⟨"sam", "s@x", "Sam", Role.subscriber, 1, 1⟩) "sam" = false ∧
    canEditOwnPosts (singleStore "sam" ⟨"sam", "s@x", "Sam", Role.subscriber, 1, 1⟩) "sam" = false ∧
    canModerateComments (singleStore "sam" ⟨"sam", "s@x", "Sam", Role.subscriber, 1, 1⟩) "sam" = false ∧
    postsCreateAllowed (singleStore "sam" ⟨"sam", "s@x", "Sam", Role.subscriber, 1, 1⟩) (some "sam") = false ∧
    postsUpdateDeleteAllowed (singleStore "sam" ⟨"sam", "s@x", "Sam", Role.subscriber, 1, 1⟩) (some "sam") "p" = false ∧
    commentsDeleteAllowed (singleStore "sam" ⟨"sam", "s@x", "Sam", Role.subscriber, 1, 1⟩) (some "sam") = false ∧
    siteWriteAllowed (singleStore "sam" ⟨"sam", "s@x", "Sam", Role.subscriber, 1, 1⟩) (some "sam") = false ∧
    postsCreateAllowed (singleStore "sam" ⟨"sam", "s@x", "Sam", Role.subscriber, 1, 1⟩) none = false ∧
    postsUpdateDeleteAllowed (singleStore "sam" ⟨"sam", "s@x", "Sam", Role.subscriber, 1, 1⟩) none "p" = false ∧
    commentsDeleteAllowed (singleStore "sam" ⟨"sam", "s@x", "Sam", Role.subscriber, 1, 1⟩) none = false ∧
    siteWriteAllowed (singleStore "sam" ⟨"sam", "s@x", "Sam", Role.subscriber, 1, 1⟩) none = false ∧
    (∀ a : Action, clientAllows (singleStore "sam" ⟨"sam", "s@x", "Sam", Role.subscriber, 1, 1⟩) none a "p" = false) :=
  subscriber_and_unauthenticated_denied
    (singleStore "sam" ⟨"sam", "s@x", "Sam", Role.subscriber, 1, 1⟩) "sam" "p" (by decide)

/-- Claim C7: for the per-resource actions (edit post, delete post), the
client decision and the storage decision each equal the OR of the spec
"any" rule with the spec "own" rule conjoined with ownership; in
particular a contributor may edit an owned post and not an unowned one. -/
theorem per_resource_tie_break :
    (∀ (store : Store) (u authorId : String),
      clientAllows store (some u) Action.editPost authorId
        = specPerResourceDecision (roleOf store u) (u == authorId)) ∧
    (∀ (store : Store) (u authorId : String),
      clientAllows store (some u) Action.deletePost authorId
        = specPerResourceDecision (roleOf store u) (u == authorId)) ∧
    (∀ (store : Store) (u authorId : String),
      postsUpdateDeleteAllowed store (some u) authorId
        = specPerResourceDecision (roleOf store u) (authorId == u)) ∧
    clientAllows (singleStore "cora" ⟨"cora", "c@x", "Cora", Role.contributor, 1, 1⟩)
      (some "cora") Action.editPost "cora" = true ∧
    clientAllows (singleStore "cora" ⟨"cora", "c@x", "Cora", Role.contributor, 1, 1⟩)
      (some "cora") Action.editPost "bob" = false := by
  refine ⟨?_, ?_, ?_, by decide, by decide⟩
  · intro store u aid
    show (canEditAnyPost store u || (canEditOwnPosts store u && (u == aid))) = _
    simp only [canEditAnyPost, canEditOwnPosts]
    exact tieBreakSpec (roleOf store u) (u == aid)
  · intro store u aid
    show (canEditAnyPost store u || (canEditOwnPosts store u && (u == aid))) = _
    simp only [canEditAnyPost, canEditOwnPosts]
    exact tieBreakSpec (roleOf store u) (u == aid)
  · intro store u aid
    simp only [postsUpdateDeleteAllowed, ruleUserRole_some, ownerMatches,
      Option.isSome_some, Bool.true_and]
    exact tieBreakSpecStorage (roleOf store u) (aid == u)

/-- Claim C8: the site-settings write is allowed exactly when the
requester resolves to role admin — hence denied for every other role and
for unauthenticated principals — and the SiteSettings page grants access
under exactly the same condition (isAdmin). -/
theorem site_settings_admin_only :
    ∀ (store : Store) (auth : Option String),
      siteWriteAllowed store auth = (ruleUserRole store auth == some Role.admin) ∧
      siteSettingsPageAccess store auth = (ruleUserRole store auth == some Role.admin) := by
  intro store auth
  cases auth with
  | none => exact ⟨rfl, rfl⟩
  | some u => exact ⟨rfl, rfl⟩

/-- Claim C9: getUserProfile and getUserRole return none both when the
profile document is absent and when the document read fails, so a caller
cannot distinguish the NotFound condition from the StoreUnavailable
condition. -/
theorem notfound_unavailable_indistinguishable :
    ∀ (s1 s2 : Store) (userId : String),
      s1 userId = ReadResult.absent → s2 userId = ReadResult.failure →
        getUserProfile s1 userId = none ∧ getUserProfile s2 userId = none ∧
        getUserRole s1 userId = none ∧ getUserRole s2 userId = none ∧
        getUserProfile s1 userId = getUserProfile s2 userId ∧
        getUserRole s1 userId = getUserRole s2 userId := by
  intro s1 s2 u h1 h2
  simp [getUserProfile, getUserRole, h1, h2]

/-- Claim C9 witness: the empty store (absent) against the failing store. -/
theorem notfound_unavailable_indistinguishable_witness :
    getUserProfile emptyStore "u" = none ∧ getUserProfile failingStore "u" = none ∧
    getUserRole emptyStore "u" = none ∧ getUserRole failingStore "u" = none ∧
    getUserProfile emptyStore "u" = getUserProfile failingStore "u" ∧
    getUserRole emptyStore "u" = getUserRole failingStore "u" :=
  notfound_unavailable_indistinguishable emptyStore failingStore "u" rfl rfl

/-- Claim C10: on the Home page the edit and delete affordances of every
listed post are gated solely by the canCreate flag (canCreatePosts passed
as the PostCard isEditor prop) — independent of the post, with no
ownership comparison and no canEditAnyPost check: an author sees the
affordances on a post they do not own although canEditAnyPost is false —
and the delete request is issued for any listed post exactly when that
flag is true. -/
theorem home_actions_gated_by_canCreate :
    (∀ (store : Store) (auth : Option String) (p : Post),
      homeShowsPostActions store auth p = homeCanCreate store auth) ∧
    (∀ (store : Store) (auth : Option String) (p q : Post),
      homeShowsPostActions store auth p = homeShowsPostActions store auth q) ∧
    (∀ (store : Store) (auth : Option String) (p : Post),
      homeDeleteRequest store auth p
        = if homeCanCreate store auth then some p.id else none) ∧
    homeShowsPostActions (singleStore "alice" ⟨"alice", "a@x", "Alice", Role.author, 1, 1⟩)
      (some "alice") ⟨"p1", "T", "C", "bob", [], [], none, 1⟩ = true ∧
    canEditAnyPost (singleStore "alice" ⟨"alice", "a@x", "Alice", Role.author, 1, 1⟩)
      "alice" = false := by
  exact ⟨fun store auth p => rfl, fun store auth p q => rfl, fun store auth p => rfl,
    by decide, by decide⟩

end Corredephd
